import Mathlib

/-!
Verification of the iRacing forum-browser backend: a shallow embedding of the
three AWS Lambda functions (`ir_auth`, `ir_custid`, `ir_drivers`) and proofs of
the spec's testable properties against it.

Modelling conventions:
* Machine time is a `Nat` Unix timestamp, read once per invocation.
* DynamoDB items are Lean structures; the store is a key-indexed function.
* Upstream HTTP traffic is an environment function from the attempt index to
  the observed outcome of that attempt; retry loops recurse on explicit fuel.
* Python decimal strings for customer ids are modelled as digit lists
  (most-significant first), `str` as `natStr` and `int` as `strNat`.
* Python `str` values used by the masking functions are modelled as lists of
  code points, `str.lower` / `str.strip` as `pyLower` / `pyStrip`.
* `time.sleep` calls are logged (the slept durations, in order) rather than
  executed; exceptions become `Except` results.
-/

/-! ## Decimal strings (Python `str(n)` / `int(s)` on customer ids) -/

/-- A JSON scalar as it appears in the `custid` field of a response body:
either a (decimal digit) string or a number. -/
inductive JVal where
  | jstr (digits : List Nat)
  | jnum (n : Int)
deriving DecidableEq, Repr

/-- Decimal digits of `n`, least significant first, with explicit fuel. -/
def toDigitsRev (fuel n : Nat) : List Nat :=
  match fuel with
  | 0 => []
  | f + 1 => if n = 0 then [] else n % 10 :: toDigitsRev f (n / 10)

/-- Python `str(n)` for a natural number: its decimal digits, most
significant first (`"0"` for zero). -/
def natStr (n : Nat) : List Nat :=
  if n = 0 then [0] else (toDigitsRev n n).reverse

/-- Python `int(s)` on a nonempty decimal-digit string, most significant
digit first. -/
def strNat (ds : List Nat) : Nat :=
  ds.foldl (fun a d => a * 10 + d) 0

/-- Python truthiness of a `custid` JSON scalar (`""` and `0` are falsy). -/
def pyTruthy : JVal → Bool
  | .jstr ds => !ds.isEmpty
  | .jnum n => n != 0

/-- Python `int(...)` applied to a `custid` JSON scalar; `none` models a
`ValueError` (e.g. `int("")`). -/
def pyInt? : JVal → Option Int
  | .jstr [] => none
  | .jstr (d :: ds) => some (strNat (d :: ds) : Nat)
  | .jnum n => some n

/-! ## Masking (`normalize_string`, `mask_client_secret`, `mask_password`)

Python strings are lists of Unicode code points; `str.lower` lowercases the
ASCII letters and `str.strip` removes leading and trailing whitespace. -/

/-- A Python string as a list of Unicode code points. -/
abbrev PyStr := List Nat

def pyToLowerChar (c : Nat) : Nat :=
  if 65 ≤ c ∧ c ≤ 90 then c + 32 else c

def pyLower (s : PyStr) : PyStr := s.map pyToLowerChar

def pyIsSpace (c : Nat) : Bool :=
  c == 32 || c == 9 || c == 10 || c == 13 || c == 11 || c == 12

def pyStrip (s : PyStr) : PyStr :=
  ((s.dropWhile pyIsSpace).reverse.dropWhile pyIsSpace).reverse

/-- `normalize_string`: lowercase, then strip surrounding whitespace. -/
def normalize_string (value : PyStr) : PyStr := pyStrip (pyLower value)

/-! ## SHA-256 and Base64 (`hashlib.sha256(...).digest()`, `base64.b64encode`) -/

/-- UTF-8 encoding of one code point. -/
def utf8Char (c : Nat) : List Nat :=
  if c < 128 then [c]
  else if c < 2048 then [192 + c / 64, 128 + c % 64]
  else if c < 65536 then [224 + c / 4096, 128 + c / 64 % 64, 128 + c % 64]
  else [240 + c / 262144, 128 + c / 4096 % 64, 128 + c / 64 % 64, 128 + c % 64]

/-- Python `str.encode('utf-8')`: code points to bytes. -/
def utf8Encode (s : PyStr) : List Nat := (s.map utf8Char).flatten

/-- Truncation to a 32-bit word. -/
def w32 (n : Nat) : Nat := n % 4294967296

/-- Right rotation of a 32-bit word. -/
def rotr (n x : Nat) : Nat := x / 2 ^ n + x % 2 ^ n * 2 ^ (32 - n)

/-- The SHA-256 round constants. -/
def sha256K : List Nat :=
  [1116352408, 1899447441, 3049323471, 3921009573, 961987163,
   1508970993, 2453635748, 2870763221, 3624381080, 310598401,
   607225278, 1426881987, 1925078388, 2162078206, 2614888103,
   3248222580, 3835390401, 4022224774, 264347078, 604807628,
   770255983, 1249150122, 1555081692, 1996064986, 2554220882,
   2821834349, 2952996808, 3210313671, 3336571891, 3584528711,
   113926993, 338241895, 666307205, 773529912, 1294757372,
   1396182291, 1695183700, 1986661051, 2177026350, 2456956037,
   2730485921, 2820302411, 3259730800, 3345764771, 3516065817,
   3600352804, 4094571909, 275423344, 430227734, 506948616,
   659060556, 883997877, 958139571, 1322822218, 1537002063,
   1747873779, 1955562222, 2024104815, 2227730452, 2361852424,
   2428436474, 2756734187, 3204031479, 3329325298]

/-- The SHA-256 initial hash state. -/
def sha256H0 : List Nat :=
  [1779033703, 3144134277, 1013904242, 2773480762,
   1359893119, 2600822924, 528734635, 1541459225]

/-- SHA-256 message padding. -/
def sha256pad (msg : List Nat) : List Nat :=
  let L := msg.length
  let padZeros := (119 - L % 64) % 64
  let bitLen := L * 8
  msg ++ [128] ++ List.replicate padZeros 0 ++
    [bitLen / 2 ^ 56 % 256, bitLen / 2 ^ 48 % 256, bitLen / 2 ^ 40 % 256,
     bitLen / 2 ^ 32 % 256, bitLen / 2 ^ 24 % 256, bitLen / 2 ^ 16 % 256,
     bitLen / 2 ^ 8 % 256, bitLen % 256]

/-- Split a byte list into 64-byte chunks. -/
def chunks64 (l : List Nat) : List (List Nat) :=
  if h : l = [] then [] else l.take 64 :: chunks64 (l.drop 64)
termination_by l.length
decreasing_by
  simp only [List.length_drop]
  have := List.length_pos.mpr h
  omega

/-- Big-endian 32-bit words from bytes. -/
def bytesToWords : List Nat → List Nat
  | a :: b :: c :: d :: rest => (((a * 256 + b) * 256 + c) * 256 + d) :: bytesToWords rest
  | _ => []

/-- Extend the 16-word message schedule by `count` further words. -/
def extendW (w : List Nat) (count : Nat) : List Nat :=
  match count with
  | 0 => w
  | c + 1 =>
    let i := w.length
    let w15 := w.getD (i - 15) 0
    let w2 := w.getD (i - 2) 0
    let s0 := rotr 7 w15 ^^^ rotr 18 w15 ^^^ w15 / 2 ^ 3
    let s1 := rotr 17 w2 ^^^ rotr 19 w2 ^^^ w2 / 2 ^ 10
    extendW (w ++ [w32 (w.getD (i - 16) 0 + s0 + w.getD (i - 7) 0 + s1)]) c

/-- One SHA-256 compression round on the eight-word state. -/
def shaRound (st : List Nat) (ki wi : Nat) : List Nat :=
  let a := st.getD 0 0
  let b := st.getD 1 0
  let c := st.getD 2 0
  let d := st.getD 3 0
  let e := st.getD 4 0
  let f := st.getD 5 0
  let g := st.getD 6 0
  let h := st.getD 7 0
  let s1 := rotr 6 e ^^^ rotr 11 e ^^^ rotr 25 e
  let ch := (e &&& f) ^^^ ((e ^^^ 4294967295) &&& g)
  let temp1 := w32 (h + s1 + ch + ki + wi)
  let s0 := rotr 2 a ^^^ rotr 13 a ^^^ rotr 22 a
  let maj := (a &&& b) ^^^ (a &&& c) ^^^ (b &&& c)
  let temp2 := w32 (s0 + maj)
  [w32 (temp1 + temp2), a, b, c, w32 (d + temp1), e, f, g]

/-- Compress one 64-byte chunk into the hash state. -/
def chunkCompress (hs : List Nat) (chunk : List Nat) : List Nat :=
  let w := extendW (bytesToWords chunk) 48
  let st := (List.range 64).foldl
    (fun st i => shaRound st (sha256K.getD i 0) (w.getD i 0)) hs
  List.zipWith (fun x y => w32 (x + y)) hs st

/-- Big-endian bytes of a 32-bit word. -/
def wordBytes (x : Nat) : List Nat :=
  [x / 2 ^ 24 % 256, x / 2 ^ 16 % 256, x / 2 ^ 8 % 256, x % 256]

/-- SHA-256 digest of a byte list. -/
def sha256 (msg : List Nat) : List Nat :=
  (((chunks64 (sha256pad msg)).foldl chunkCompress sha256H0).map wordBytes).flatten

/-- Code point of the `n`-th Base64 alphabet character. -/
def b64Char (n : Nat) : Nat :=
  if n < 26 then 65 + n
  else if n < 52 then 97 + (n - 26)
  else if n < 62 then 48 + (n - 52)
  else if n = 62 then 43
  else 47

/-- Python `base64.b64encode(...).decode('utf-8')` on a byte list, as code
points (61 is the padding character). -/
def b64encode : List Nat → PyStr
  | a :: b :: c :: rest =>
    let x := a * 65536 + b * 256 + c
    b64Char (x / 262144) :: b64Char (x / 4096 % 64) :: b64Char (x / 64 % 64)
      :: b64Char (x % 64) :: b64encode rest
  | [a, b] =>
    let x := a * 65536 + b * 256
    [b64Char (x / 262144), b64Char (x / 4096 % 64), b64Char (x / 64 % 64), 61]
  | [a] =>
    let x := a * 65536
    [b64Char (x / 262144), b64Char (x / 4096 % 64), 61, 61]
  | [] => []

/-- `mask_client_secret`: SHA-256 of the client secret concatenated with the
normalized client id, Base64-encoded. -/
def mask_client_secret (client_secret client_id : PyStr) : PyStr :=
  b64encode (sha256 (utf8Encode (client_secret ++ normalize_string client_id)))

/-- `mask_password`: SHA-256 of the password concatenated with the normalized
username, Base64-encoded. -/
def mask_password (password username : PyStr) : PyStr :=
  b64encode (sha256 (utf8Encode (password ++ normalize_string username)))

/-! ## `ir_auth` — the Token Lifecycle Manager (`lambda/ir_auth/lambda_function.py`) -/

instance {ε α : Type} [DecidableEq ε] [DecidableEq α] : DecidableEq (Except ε α) :=
  fun x y =>
    match x, y with
    | .ok a, .ok b =>
      if h : a = b then .isTrue (congrArg Except.ok h)
      else .isFalse (fun hc => h (Except.ok.inj hc))
    | .error a, .error b =>
      if h : a = b then .isTrue (congrArg Except.error h)
      else .isFalse (fun hc => h (Except.error.inj hc))
    | .ok _, .error _ => .isFalse (fun hc => Except.noConfusion hc)
    | .error _, .ok _ => .isFalse (fun hc => Except.noConfusion hc)

def MAX_RETRIES : Nat := 3
def BASE_BACKOFF_DELAY : Nat := 1

/-- Exponential backoff delay for the given zero-based attempt index. -/
def backoffDelay (attempt : Nat) : Nat := BASE_BACKOFF_DELAY * 2 ^ attempt

namespace IrAuth

def ACCESS_TOKEN_LIFETIME : Nat := 600
def REFRESH_TOKEN_LIFETIME : Nat := 7 * 24 * 60 * 60

/-- A parsed 200 response body of the OAuth token endpoint. -/
structure OAuthBody where
  access_token : String
  token_type : Option String
  expires_in : Option Nat
  scope : Option String
  refresh_token : Option String
  refresh_token_expires_in : Option Nat
deriving DecidableEq, Repr

/-- The outcome of one HTTP attempt against the OAuth endpoint, as observed by
`make_oauth_request`: a parsed 200, a non-200 status (with an optional
`Retry-After` header), a connection failure, or a 200 with malformed JSON. -/
inductive HttpOutcome where
  | ok (body : OAuthBody)
  | status (code : Nat) (retryAfter : Option Nat)
  | netError
  | badJson
deriving DecidableEq, Repr

/-- The two exception types `make_oauth_request` can raise. -/
inductive AuthExn where
  | authenticationError
  | rateLimitError
deriving DecidableEq, Repr

/-- The observable result of `make_oauth_request`: its return value or raised
exception, the number of HTTP attempts made, and the slept delays in order. -/
structure OAuthRun where
  result : Except AuthExn OAuthBody
  attempts : Nat
  sleeps : List Nat
deriving DecidableEq, Repr

/-- Prepend one attempt (that slept `sleep` before retrying) to a run. -/
def consAttempt (sleep : Nat) (rest : OAuthRun) : OAuthRun :=
  ⟨rest.result, rest.attempts + 1, sleep :: rest.sleeps⟩

/-- The retry loop of `make_oauth_request`, from attempt index `attempt` with
`fuel = MAX_RETRIES - attempt` iterations left. Status handling: 200 returns,
429 sleeps for the `Retry-After` hint (default: exponential backoff) and
retries, 401/403 raise `AuthenticationError` at once, anything else (and
connection or JSON-decode failures) backs off and retries; on the last
attempt, 429 raises `RateLimitError` and the transient cases raise
`AuthenticationError`. -/
def make_oauth_request_from (upstream : Nat → HttpOutcome) (attempt fuel : Nat) :
    OAuthRun :=
  match fuel with
  | 0 => ⟨.error .authenticationError, 0, []⟩
  | fuel + 1 =>
    match upstream attempt with
    | .ok body => ⟨.ok body, 1, []⟩
    | .status code retryAfter =>
      if code = 429 then
        if fuel = 0 then ⟨.error .rateLimitError, 1, []⟩
        else
          consAttempt (retryAfter.getD (backoffDelay attempt))
            (make_oauth_request_from upstream (attempt + 1) fuel)
      else if code = 401 ∨ code = 403 then ⟨.error .authenticationError, 1, []⟩
      else
        if fuel = 0 then ⟨.error .authenticationError, 1, []⟩
        else
          consAttempt (backoffDelay attempt)
            (make_oauth_request_from upstream (attempt + 1) fuel)
    | .netError =>
      if fuel = 0 then ⟨.error .authenticationError, 1, []⟩
      else
        consAttempt (backoffDelay attempt)
          (make_oauth_request_from upstream (attempt + 1) fuel)
    | .badJson =>
      if fuel = 0 then ⟨.error .authenticationError, 1, []⟩
      else
        consAttempt (backoffDelay attempt)
          (make_oauth_request_from upstream (attempt + 1) fuel)

/-- `make_oauth_request` for one grant flow, with the per-attempt upstream
outcomes given by `upstream`. -/
def make_oauth_request (upstream : Nat → HttpOutcome) : OAuthRun :=
  make_oauth_request_from upstream 0 MAX_RETRIES

/-- The DynamoDB `ir_auth` table item for the configured username. -/
structure TokenItem where
  access_token : String
  token_type : Option String
  expires_in : Option Nat
  scope : Option String
  ttl : Option Nat
  refresh_token : Option String
  refresh_token_expires_in : Option Nat
  refresh_token_ttl : Option Nat
deriving DecidableEq, Repr

/-- `store_tokens_in_dynamodb`: build the item written for a successful OAuth
response; the access-token `ttl` is `now + expires_in` (default 600 s) and,
when a refresh token is present, `refresh_token_ttl` is
`now + refresh_token_expires_in` (default 7 days). -/
def store_tokens_in_dynamodb (now : Nat) (body : OAuthBody) : TokenItem :=
  let access_token_ttl := now + body.expires_in.getD ACCESS_TOKEN_LIFETIME
  let refresh_token_ttl := now + body.refresh_token_expires_in.getD REFRESH_TOKEN_LIFETIME
  { access_token := body.access_token
    token_type := some (body.token_type.getD "Bearer")
    expires_in := some (body.expires_in.getD ACCESS_TOKEN_LIFETIME)
    scope := some (body.scope.getD "iracing.auth")
    ttl := some access_token_ttl
    refresh_token := body.refresh_token
    refresh_token_expires_in :=
      if body.refresh_token.isSome then
        some (body.refresh_token_expires_in.getD REFRESH_TOKEN_LIFETIME)
      else none
    refresh_token_ttl :=
      if body.refresh_token.isSome then some refresh_token_ttl else none }

/-- What `get_existing_tokens` returns: a still-valid access token (the full
token dictionary) or an expired one with a still-valid refresh token. -/
inductive ExistingTokens where
  | valid (access_token : String) (token_type : String) (expires_in : Nat)
      (scope : String) (refresh_token : Option String)
      (refresh_token_expires_in : Nat)
  | expired (refresh_token : String)
deriving DecidableEq, Repr

/-- `get_existing_tokens`: classify the stored item at read time `now`. The
access token is usable only while `ttl > now`; otherwise the refresh token is
returned if `refresh_token_ttl > now` and a refresh token is present. -/
def get_existing_tokens (now : Nat) (stored : Option TokenItem) :
    Option ExistingTokens :=
  match stored with
  | none => none
  | some item =>
    if item.ttl.getD 0 > now then
      some (.valid item.access_token (item.token_type.getD "Bearer")
        (item.expires_in.getD 0) (item.scope.getD "") item.refresh_token
        (item.refresh_token_expires_in.getD 0))
    else
      if item.refresh_token_ttl.getD 0 > now then
        match item.refresh_token with
        | some rt => some (.expired rt)
        | none => none
      else none

/-- The environment of one `ir_auth` invocation: the clock, the stored token
item, and the upstream outcomes of the password and refresh grant flows. -/
structure AuthEnv where
  now : Nat
  stored : Option TokenItem
  upstreamPassword : Nat → HttpOutcome
  upstreamRefresh : Nat → HttpOutcome

/-- The observable response of the `ir_auth` handler: HTTP status, the
`Retry-After` header if set, the returned access token, the `ttl` recorded in
the store for that token, and the item written (if any). -/
structure AuthResponse where
  statusCode : Nat
  retryAfter : Option Nat
  access_token : Option String
  tokenTtl : Option Nat
  write : Option TokenItem
deriving DecidableEq, Repr

/-- The fresh `password_limited` authentication path of the handler, with its
error-to-status mapping (`AuthenticationError` to 401, `RateLimitError` to 429
with `Retry-After: 60`). -/
def passwordFlow (env : AuthEnv) : AuthResponse :=
  let run := make_oauth_request env.upstreamPassword
  match run.result with
  | .ok body =>
    let item := store_tokens_in_dynamodb env.now body
    ⟨200, none, some body.access_token, item.ttl, some item⟩
  | .error .authenticationError => ⟨401, none, none, none, none⟩
  | .error .rateLimitError => ⟨429, some 60, none, none, none⟩

/-- `lambda_handler` of `ir_auth`: return the cached token while valid; else
try the refresh grant when an unexpired refresh token exists (falling back to
password authentication if it fails); else authenticate from scratch. -/
def lambda_handler (env : AuthEnv) : AuthResponse :=
  match get_existing_tokens env.now env.stored with
  | some (.valid access_token _ _ _ _ _) =>
    { statusCode := 200
      retryAfter := none
      access_token := some access_token
      tokenTtl := env.stored.bind TokenItem.ttl
      write := none }
  | some (.expired refresh_token) =>
    if refresh_token = "" then passwordFlow env
    else
      let run := make_oauth_request env.upstreamRefresh
      match run.result with
      | .ok body =>
        let item := store_tokens_in_dynamodb env.now body
        ⟨200, none, some body.access_token, item.ttl, some item⟩
      | .error _ => passwordFlow env
  | none => passwordFlow env

end IrAuth

/-! ## The shared two-step fetch pattern of `ir_custid` and `ir_drivers`

Both `search_driver_with_auth` and `get_driver_profile_with_auth` run the same
retry loop: an authenticated request returning a pre-signed link, then an
unauthenticated request dereferencing it. -/

namespace TwoStep

/-- Exceptions raised by the two fetch functions. -/
inductive UpErr where
  | authenticationError
  | apiError
deriving DecidableEq, Repr

/-- Outcome of the first (authenticated) request of one attempt: a 200 (with
or without a `link` field in its body), 401, 429, another non-200 status, or a
connection/JSON failure. -/
inductive Step1 where
  | ok (hasLink : Bool)
  | auth
  | rate
  | other
  | transient
deriving DecidableEq, Repr

/-- Outcome of the second (unauthenticated, pre-signed link) request: a parsed
200 body, 401, another non-200 status, or a connection/JSON failure. -/
inductive Step2 (α : Type) where
  | ok (body : α)
  | auth
  | other
  | transient
deriving DecidableEq, Repr

/-- One attempt's upstream behaviour (the second step is consulted only when
the first returned 200 with a link). -/
structure Attempt (α : Type) where
  s1 : Step1
  s2 : Step2 α
deriving DecidableEq, Repr

/-- The observable result of a fetch: returned body or raised exception, the
number of attempts made, and the slept backoff delays in order. -/
structure FetchRun (α : Type) where
  result : Except UpErr α
  attempts : Nat
  sleeps : List Nat
deriving DecidableEq, Repr

/-- Prepend one attempt that backed off before retrying. -/
def consAttempt {α : Type} (attempt : Nat) (rest : FetchRun α) : FetchRun α :=
  ⟨rest.result, rest.attempts + 1, backoffDelay attempt :: rest.sleeps⟩

/-- The retry loop, from attempt index `attempt` with
`fuel = MAX_RETRIES - attempt` iterations left. A 401 on either step raises
`AuthenticationError` immediately; a 200 body without a `link` raises
`APIError` immediately; 429, other statuses and connection/JSON failures back
off exponentially and retry, raising `APIError` on the last attempt. -/
def fetchFrom {α : Type} (up : Nat → Attempt α) (attempt fuel : Nat) : FetchRun α :=
  match fuel with
  | 0 => ⟨.error .apiError, 0, []⟩
  | fuel + 1 =>
    match (up attempt).s1 with
    | .auth => ⟨.error .authenticationError, 1, []⟩
    | .rate =>
      if fuel = 0 then ⟨.error .apiError, 1, []⟩
      else consAttempt attempt (fetchFrom up (attempt + 1) fuel)
    | .other =>
      if fuel = 0 then ⟨.error .apiError, 1, []⟩
      else consAttempt attempt (fetchFrom up (attempt + 1) fuel)
    | .transient =>
      if fuel = 0 then ⟨.error .apiError, 1, []⟩
      else consAttempt attempt (fetchFrom up (attempt + 1) fuel)
    | .ok hasLink =>
      if !hasLink then ⟨.error .apiError, 1, []⟩
      else
        match (up attempt).s2 with
        | .auth => ⟨.error .authenticationError, 1, []⟩
        | .other =>
          if fuel = 0 then ⟨.error .apiError, 1, []⟩
          else consAttempt attempt (fetchFrom up (attempt + 1) fuel)
        | .transient =>
          if fuel = 0 then ⟨.error .apiError, 1, []⟩
          else consAttempt attempt (fetchFrom up (attempt + 1) fuel)
        | .ok body => ⟨.ok body, 1, []⟩

/-- Run the two-step fetch with the full retry budget. -/
def fetch {α : Type} (up : Nat → Attempt α) : FetchRun α :=
  fetchFrom up 0 MAX_RETRIES

end TwoStep

/-! ## `ir_custid` — the Resolution Service (`lambda/ir_custid/lambda_function.py`) -/

namespace IrCustid

/-- One candidate in the dereferenced driver-search result list. -/
structure Driver where
  display_name : String
  cust_id : Nat
deriving DecidableEq, Repr

/-- The JSON body of a successful `ir_custid` response. -/
structure CustidBody where
  custid : JVal
  name : String
  origin : String
deriving DecidableEq, Repr

/-- The disambiguation and caching step of `search_driver_with_auth` applied
to the fetched candidate list: an empty list yields the sentinel
`custid = 0` (integer) with a "Not found" marker and no cache write; with
more than one candidate, the first exact display-name match is preferred;
otherwise the first candidate is used. The chosen candidate is written to the
`ir_custid` cache keyed by its `display_name`, and its id is returned as a
decimal string. -/
def processDrivers (search_term : String) (drivers_data : List Driver) :
    CustidBody × List (String × Nat) :=
  match drivers_data with
  | [] => (⟨.jnum 0, "Not found: " ++ search_term, "iRacing"⟩, [])
  | d :: rest =>
    match (if rest ≠ [] then
        (d :: rest).find? (fun dr => dr.display_name = search_term)
      else none) with
    | some dr =>
      (⟨.jstr (natStr dr.cust_id), dr.display_name, "iRacing"⟩,
        [(dr.display_name, dr.cust_id)])
    | none =>
      (⟨.jstr (natStr d.cust_id), d.display_name, "iRacing"⟩,
        [(d.display_name, d.cust_id)])

/-- The observable result of `search_driver_with_auth`: its returned body or
raised exception, the upstream attempts made, the slept delays, and the
`cache_driver_result` writes performed (name key, customer id). -/
structure SearchRun where
  result : Except TwoStep.UpErr CustidBody
  attempts : Nat
  sleeps : List Nat
  cacheWrites : List (String × Nat)
deriving DecidableEq, Repr

/-- `search_driver_with_auth`: the two-step fetch followed by candidate
processing. -/
def search_driver_with_auth (search_term : String)
    (up : Nat → TwoStep.Attempt (List Driver)) : SearchRun :=
  let run := TwoStep.fetch up
  match run.result with
  | .error e => ⟨.error e, run.attempts, run.sleeps, []⟩
  | .ok drivers_data =>
    let pr := processDrivers search_term drivers_data
    ⟨.ok pr.1, run.attempts, run.sleeps, pr.2⟩

/-- The environment of one `ir_custid` invocation: the (unquoted) query
string, the `ir_custid` cache table, the token-acquisition outcomes, and the
upstream behaviour of the first search and of the post-re-authentication
retry. -/
structure CustidEnv where
  searchTerm : String
  custidCache : String → Option Nat
  token1 : Option String
  authOk1 : Bool
  token2 : Option String
  up : Nat → TwoStep.Attempt (List Driver)
  authOk2 : Bool
  token3 : Option String
  upRetry : Nat → TwoStep.Attempt (List Driver)

/-- The observable response of the `ir_custid` handler: HTTP status, the
response body on success, total upstream search attempts, and all identifier
cache writes performed. -/
structure CustidResponse where
  statusCode : Nat
  body : Option CustidBody
  attempts : Nat
  cacheWrites : List (String × Nat)
deriving DecidableEq, Repr

/-- The search phase of the handler: one `search_driver_with_auth` call and,
on `AuthenticationError` only, one forced re-authentication followed by a
single retry. `APIError` maps to 502 and `AuthenticationError` to 401. -/
def doSearch (env : CustidEnv) : CustidResponse :=
  let run := search_driver_with_auth env.searchTerm env.up
  match run.result with
  | .ok body => ⟨200, some body, run.attempts, run.cacheWrites⟩
  | .error .apiError => ⟨502, none, run.attempts, run.cacheWrites⟩
  | .error .authenticationError =>
    if !env.authOk2 then ⟨401, none, run.attempts, run.cacheWrites⟩
    else
      match env.token3 with
      | none => ⟨401, none, run.attempts, run.cacheWrites⟩
      | some _ =>
        let run2 := search_driver_with_auth env.searchTerm env.upRetry
        match run2.result with
        | .ok body =>
          ⟨200, some body, run.attempts + run2.attempts,
            run.cacheWrites ++ run2.cacheWrites⟩
        | .error .apiError =>
          ⟨502, none, run.attempts + run2.attempts,
            run.cacheWrites ++ run2.cacheWrites⟩
        | .error .authenticationError =>
          ⟨401, none, run.attempts + run2.attempts,
            run.cacheWrites ++ run2.cacheWrites⟩

/-- `lambda_handler` of `ir_custid`: 400 on a missing search term; otherwise
serve from the identifier cache when the exact query key is present (origin
`"DynamoDB"`, the cached decimal string), else acquire a token (invoking
`ir_auth` if needed) and search upstream. -/
def lambda_handler (env : CustidEnv) : CustidResponse :=
  if env.searchTerm = "" then ⟨400, none, 0, []⟩
  else
    match env.custidCache env.searchTerm with
    | some n =>
      ⟨200, some ⟨.jstr (natStr n), env.searchTerm, "DynamoDB"⟩, 0, []⟩
    | none =>
      match env.token1 with
      | some _ => doSearch env
      | none =>
        if !env.authOk1 then ⟨401, none, 0, []⟩
        else
          match env.token2 with
          | none => ⟨401, none, 0, []⟩
          | some _ => doSearch env

/-- Apply a list of identifier-cache writes to the cache table. -/
def applyWrites (cache : String → Option Nat) (ws : List (String × Nat)) :
    String → Option Nat :=
  ws.foldl (fun c w => fun k => if k = w.1 then some w.2 else c k) cache

end IrCustid

/-! ## `ir_drivers` — the Profile Service (`lambda/ir_drivers/lambda_function.py`) -/

namespace IrDrivers

def CACHE_TTL_SECONDS : Nat := 3600

/-- An opaque profile document payload (the JSON body is never inspected). -/
abbrev ProfileDoc := Nat

/-- A DynamoDB `ir_drivers` table item: serialized profile plus absolute
expiry. -/
structure ProfileItem where
  profile : ProfileDoc
  ttl : Nat
deriving DecidableEq, Repr

/-- `cache_driver_profile`: the item written for a freshly fetched profile,
with `ttl = now + CACHE_TTL_SECONDS`. -/
def cache_driver_profile (now : Nat) (profile : ProfileDoc) : ProfileItem :=
  ⟨profile, now + CACHE_TTL_SECONDS⟩

/-- `get_cached_driver_profile`: return the cached profile only while
`ttl > now`; an expired or absent record reads as `none`. -/
def get_cached_driver_profile (now : Nat) (item? : Option ProfileItem) :
    Option ProfileDoc :=
  match item? with
  | none => none
  | some item => if item.ttl > now then some item.profile else none

/-- `get_customer_id_from_cache`: the cached numeric attribute read back as a
decimal string. -/
def get_customer_id_from_cache (cache : String → Option Nat) (name : String) :
    Option (List Nat) :=
  (cache name).map natStr

/-- The shared store state threaded through a batch: the profile cache and the
identifier cache. -/
structure Store where
  profiles : String → Option ProfileItem
  custids : String → Option Nat

/-- The error message families `process_driver` can produce for a name. -/
inductive DriverError where
  | notFound
  | iracingApi
  | unexpected
deriving DecidableEq, Repr

/-- A per-name entry of the response mapping. -/
inductive ProfileOrError where
  | profile (p : ProfileDoc)
  | err (e : DriverError)
deriving DecidableEq, Repr

/-- The per-name environment behaviour of one `ir_drivers` invocation. -/
structure DriversEnv where
  now : Nat
  names : List String
  token1 : Option String
  authOk : Bool
  token2 : Option String
  custidLambda : String → Option JVal
  up : String → Nat → TwoStep.Attempt ProfileDoc
  reauth : String → Bool
  newToken : String → Option String
  upRetry : String → Nat → TwoStep.Attempt ProfileDoc

/-- The observable outcome of `process_driver` for one name: the mapping
entry produced, the upstream profile-fetch attempts made, the number of
`ir_auth` re-authentication invocations, and the profile-cache write (if
any). -/
structure ProcResult where
  value : ProfileOrError
  attempts : Nat
  authInvokes : Nat
  profileWrite : Option ProfileItem
deriving DecidableEq, Repr

/-- `process_driver`: serve from the profile cache while unexpired; else
resolve the customer id (identifier cache first, then the `ir_custid`
Lambda), reject missing/non-positive ids as "Driver not found"; else fetch
the profile upstream, retrying exactly once with a fresh token after an
`AuthenticationError`, and cache a successful result. All `APIError` and
`AuthenticationError` failures become per-name error entries. -/
def process_driver (env : DriversEnv) (name : String) (store : Store) :
    ProcResult :=
  match get_cached_driver_profile env.now (store.profiles name) with
  | some cached => ⟨.profile cached, 0, 0, none⟩
  | none =>
    let custId? : Option JVal :=
      match get_customer_id_from_cache store.custids name with
      | some ds => some (.jstr ds)
      | none => env.custidLambda name
    match custId? with
    | none => ⟨.err .iracingApi, 0, 0, none⟩
    | some cv =>
      if !pyTruthy cv then ⟨.err .notFound, 0, 0, none⟩
      else
        match pyInt? cv with
        | none => ⟨.err .unexpected, 0, 0, none⟩
        | some k =>
          if k ≤ 0 then ⟨.err .notFound, 0, 0, none⟩
          else
            let run := TwoStep.fetch (env.up name)
            match run.result with
            | .ok profile =>
              ⟨.profile profile, run.attempts, 0,
                some (cache_driver_profile env.now profile)⟩
            | .error .apiError => ⟨.err .iracingApi, run.attempts, 0, none⟩
            | .error .authenticationError =>
              if !env.reauth name then ⟨.err .iracingApi, run.attempts, 1, none⟩
              else
                match env.newToken name with
                | none => ⟨.err .iracingApi, run.attempts, 1, none⟩
                | some _ =>
                  let run2 := TwoStep.fetch (env.upRetry name)
                  match run2.result with
                  | .ok profile =>
                    ⟨.profile profile, run.attempts + run2.attempts, 1,
                      some (cache_driver_profile env.now profile)⟩
                  | .error _ =>
                    ⟨.err .iracingApi, run.attempts + run2.attempts, 1, none⟩

/-- The per-name loop of the handler, threading the profile-cache writes
through the store and accumulating the `drivers_info` mapping. -/
def runBatch (env : DriversEnv) :
    List String → Store → (String → Option ProfileOrError) →
      (String → Option ProfileOrError) × Store
  | [], store, acc => (acc, store)
  | name :: rest, store, acc =>
    let r := process_driver env name store
    let store' :=
      match r.profileWrite with
      | some item =>
        { store with
            profiles := fun k => if k = name then some item else store.profiles k }
      | none => store
    runBatch env rest store' (fun k => if k = name then some r.value else acc k)

/-- The observable response of the `ir_drivers` handler. -/
structure DriversResponse where
  statusCode : Nat
  body : String → Option ProfileOrError
  finalProfiles : String → Option ProfileItem

/-- `lambda_handler` of `ir_drivers`: 400 when no names were supplied, 401
when no access token can be obtained even after invoking `ir_auth`, otherwise
a 200 whose body maps each requested name to its profile or per-name error. -/
def lambda_handler (env : DriversEnv) (store : Store) : DriversResponse :=
  if env.names = [] then ⟨400, fun _ => none, store.profiles⟩
  else
    match env.token1 with
    | some _ =>
      let r := runBatch env env.names store (fun _ => none)
      ⟨200, r.1, r.2.profiles⟩
    | none =>
      if !env.authOk then ⟨401, fun _ => none, store.profiles⟩
      else
        match env.token2 with
        | none => ⟨401, fun _ => none, store.profiles⟩
        | some _ =>
          let r := runBatch env env.names store (fun _ => none)
          ⟨200, r.1, r.2.profiles⟩

end IrDrivers

/-! ## Concrete environments used by the witnesses and counterexamples -/

/-- A stored, still-valid token item read at time 1000 with expiry 1500. -/
def authEnvW1 : IrAuth.AuthEnv :=
  { now := 1000
    stored := some
      { access_token := "tok"
        token_type := some "Bearer"
        expires_in := some 600
        scope := some "iracing.auth"
        ttl := some 1500
        refresh_token := none
        refresh_token_expires_in := none
        refresh_token_ttl := none }
    upstreamPassword := fun _ => .netError
    upstreamRefresh := fun _ => .netError }

/-- No stored token; the OAuth endpoint answers 500 on every attempt. -/
def authEnvW6 : IrAuth.AuthEnv :=
  { now := 0
    stored := none
    upstreamPassword := fun _ => .status 500 none
    upstreamRefresh := fun _ => .netError }

/-- The constant retry-after hint used by the C3 witness. -/
def hintW3 : Nat → Option Nat := fun _ => some 7

/-- An `ir_custid` invocation whose upstream search is rate-limited on every
attempt. -/
def custidEnvW3 : IrCustid.CustidEnv :=
  { searchTerm := "bob"
    custidCache := fun _ => none
    token1 := some "tok"
    authOk1 := true
    token2 := none
    up := fun _ => ⟨.rate, .other⟩
    authOk2 := true
    token3 := none
    upRetry := fun _ => ⟨.rate, .other⟩ }

/-- An `ir_custid` invocation for the query "bob" whose only candidate has
the differing display name "Bob Smith". -/
def custidEnvX4 : IrCustid.CustidEnv :=
  { searchTerm := "bob"
    custidCache := fun _ => none
    token1 := some "tok"
    authOk1 := true
    token2 := none
    up := fun _ => ⟨.ok true, .ok [⟨"Bob Smith", 5⟩]⟩
    authOk2 := true
    token3 := none
    upRetry := fun _ => ⟨.other, .other⟩ }

/-- `custidEnvX4` re-run after applying the first run's cache writes. -/
def custidEnvX4' : IrCustid.CustidEnv :=
  { custidEnvX4 with
    custidCache :=
      IrCustid.applyWrites custidEnvX4.custidCache
        (IrCustid.lambda_handler custidEnvX4).cacheWrites }

/-- An `ir_custid` invocation for the query "Bob Smith" whose only candidate
has exactly that display name. -/
def custidEnvW4 : IrCustid.CustidEnv :=
  { custidEnvX4 with searchTerm := "Bob Smith" }

/-- `custidEnvW4` re-run after applying the first run's cache writes. -/
def custidEnvW4' : IrCustid.CustidEnv :=
  { custidEnvW4 with
    custidCache :=
      IrCustid.applyWrites custidEnvW4.custidCache
        (IrCustid.lambda_handler custidEnvW4).cacheWrites }

/-- An upstream search whose candidate list is empty on every attempt. -/
def upW9 : Nat → TwoStep.Attempt (List IrCustid.Driver) :=
  fun _ => ⟨.ok true, .ok []⟩

/-- An `ir_custid` invocation for "Zzyzx" with no upstream candidates. -/
def custidEnvW10 : IrCustid.CustidEnv :=
  { searchTerm := "Zzyzx"
    custidCache := fun _ => none
    token1 := some "tok"
    authOk1 := true
    token2 := none
    up := upW9
    authOk2 := true
    token3 := none
    upRetry := fun _ => ⟨.other, .other⟩ }

/-- An `ir_drivers` invocation whose profile endpoint answers 401 on every
attempt, before and after re-authentication. -/
def driversEnvW2 : IrDrivers.DriversEnv :=
  { now := 0
    names := ["A"]
    token1 := some "tok"
    authOk := true
    token2 := none
    custidLambda := fun _ => none
    up := fun _ _ => ⟨.auth, .other⟩
    reauth := fun _ => true
    newToken := fun _ => some "tok2"
    upRetry := fun _ _ => ⟨.auth, .other⟩ }

/-- A store with no cached profiles and customer id 42 for every name. -/
def storeW2 : IrDrivers.Store :=
  { profiles := fun _ => none
    custids := fun _ => some 42 }

/-- An `ir_drivers` invocation whose profile fetch succeeds at once. -/
def driversEnvW7 (now : Nat) : IrDrivers.DriversEnv :=
  { now := now
    names := ["A"]
    token1 := some "tok"
    authOk := true
    token2 := none
    custidLambda := fun _ => none
    up := fun _ _ => ⟨.ok true, .ok 9⟩
    reauth := fun _ => false
    newToken := fun _ => none
    upRetry := fun _ _ => ⟨.other, .other⟩ }

/-- A store whose profile for "A" was cached at time 100 with payload 5. -/
def storeW7 : IrDrivers.Store :=
  { profiles := fun k =>
      if k = "A" then some (IrDrivers.cache_driver_profile 100 5) else none
    custids := fun _ => some 42 }

/-- A three-name `ir_drivers` batch where the profile fetch for "B" fails with
a persistent upstream error while "A" and "C" succeed. -/
def driversEnvW8 : IrDrivers.DriversEnv :=
  { now := 0
    names := ["A", "B", "C"]
    token1 := some "tok"
    authOk := true
    token2 := none
    custidLambda := fun _ => none
    up := fun name _ =>
      if name = "B" then ⟨.other, .other⟩
      else if name = "A" then ⟨.ok true, .ok 7⟩
      else ⟨.ok true, .ok 9⟩
    reauth := fun _ => false
    newToken := fun _ => none
    upRetry := fun _ _ => ⟨.other, .other⟩ }

/-- A store with no cached profiles and distinct customer ids per name. -/
def storeW8 : IrDrivers.Store :=
  { profiles := fun _ => none
    custids := fun name =>
      if name = "A" then some 11 else if name = "B" then some 12 else some 13 }

/-! ## Helper lemmas -/

theorem foldr_toDigitsRev (fuel n : Nat) (hn : n ≤ fuel) :
    (toDigitsRev fuel n).foldr (fun d a => a * 10 + d) 0 = n := by
  induction fuel generalizing n with
  | zero => interval_cases n; rfl
  | succ f ih =>
    unfold toDigitsRev
    split
    · next hz => simp [hz]
    · next hnz =>
      rw [List.foldr_cons, ih (n / 10) (by omega)]
      omega

theorem strNat_natStr (n : Nat) : strNat (natStr n) = n := by
  unfold natStr strNat
  split
  · next h => subst h; rfl
  · rw [List.foldl_reverse]
    exact foldr_toDigitsRev n n le_rfl

theorem natStr_ne_nil (n : Nat) : natStr n ≠ [] := by
  unfold natStr
  split
  · simp
  · next h =>
    cases n with
    | zero => exact absurd rfl h
    | succ m =>
      unfold toDigitsRev
      simp [h]

/-- `int(str(n))` round-trips through `pyInt?` for every natural `n`. -/
theorem pyInt?_jstr_natStr (n : Nat) : pyInt? (.jstr (natStr n)) = some (n : Int) := by
  have hne := natStr_ne_nil n
  have hval := strNat_natStr n
  unfold pyInt?
  cases h : natStr n with
  | nil => exact absurd h hne
  | cons d ds =>
    rw [h] at hval
    simp [hval]

theorem pyTruthy_jstr_natStr (n : Nat) : pyTruthy (.jstr (natStr n)) = true := by
  have hne := natStr_ne_nil n
  unfold pyTruthy
  cases h : natStr n with
  | nil => exact absurd h hne
  | cons d ds => simp

theorem pyToLowerChar_pyToLowerChar (c : Nat) :
    pyToLowerChar (pyToLowerChar c) = pyToLowerChar c := by
  unfold pyToLowerChar
  split_ifs <;> omega

theorem pyIsSpace_pyToLowerChar (c : Nat) :
    pyIsSpace (pyToLowerChar c) = pyIsSpace c := by
  rw [Bool.eq_iff_iff]
  unfold pyIsSpace pyToLowerChar
  split_ifs with h
  · simp
    omega
  · simp

theorem pyLower_pyLower (s : PyStr) : pyLower (pyLower s) = pyLower s := by
  unfold pyLower
  rw [List.map_map]
  have hf : pyToLowerChar ∘ pyToLowerChar = pyToLowerChar :=
    funext pyToLowerChar_pyToLowerChar
  rw [hf]

theorem dropWhile_map_lower (p : Nat → Bool) (l : List Nat) :
    (l.map pyToLowerChar).dropWhile p
      = (l.dropWhile (fun c => p (pyToLowerChar c))).map pyToLowerChar := by
  induction l with
  | nil => rfl
  | cons a l ih =>
    simp only [List.map_cons, List.dropWhile_cons]
    split_ifs with h
    · exact ih
    · rfl

theorem dropWhile_dropWhile (p : Nat → Bool) (l : List Nat) :
    (l.dropWhile p).dropWhile p = l.dropWhile p := by
  induction l with
  | nil => rfl
  | cons a l ih =>
    by_cases h : p a <;> simp [List.dropWhile_cons, h, ih]

theorem exists_append_dropWhile (p : Nat → Bool) (l : List Nat) :
    ∃ pre, pre ++ l.dropWhile p = l := by
  induction l with
  | nil => exact ⟨[], rfl⟩
  | cons a l ih =>
    rw [List.dropWhile_cons]
    split_ifs with h
    · obtain ⟨pre, hp⟩ := ih
      exact ⟨a :: pre, by simp [hp]⟩
    · exact ⟨[], rfl⟩

theorem dropWhile_eq_self_append (p : Nat → Bool) (z r t : List Nat)
    (hzt : z ++ r = t) (ht : t.dropWhile p = t) : z.dropWhile p = z := by
  cases z with
  | nil => rfl
  | cons a z' =>
    subst hzt
    rw [List.cons_append, List.dropWhile_cons] at ht
    rw [List.dropWhile_cons]
    split_ifs with h
    · rw [if_pos h] at ht
      exfalso
      have hlen := congrArg List.length ht
      have hle := (List.dropWhile_suffix (l := z' ++ r) p).length_le
      simp at hlen hle
      omega
    · rfl

theorem pyStrip_pyLower (s : PyStr) : pyStrip (pyLower s) = pyLower (pyStrip s) := by
  unfold pyStrip pyLower
  have hpred : (fun c => pyIsSpace (pyToLowerChar c)) = pyIsSpace :=
    funext pyIsSpace_pyToLowerChar
  rw [dropWhile_map_lower, hpred, ← List.map_reverse, dropWhile_map_lower, hpred,
    ← List.map_reverse]

theorem pyStrip_pyStrip (s : PyStr) : pyStrip (pyStrip s) = pyStrip s := by
  unfold pyStrip
  obtain ⟨pre, hp⟩ :=
    exists_append_dropWhile pyIsSpace (s.dropWhile pyIsSpace).reverse
  have hz : ((s.dropWhile pyIsSpace).reverse.dropWhile pyIsSpace).reverse ++ pre.reverse
      = s.dropWhile pyIsSpace := by
    rw [← List.reverse_append, hp, List.reverse_reverse]
  rw [dropWhile_eq_self_append pyIsSpace _ _ _ hz (dropWhile_dropWhile pyIsSpace s),
    List.reverse_reverse, dropWhile_dropWhile]

/-- Normalization is insensitive to pre-lowercasing and pre-stripping of its
argument: the key congruence behind the masking property. -/
theorem normalize_string_pyLower_pyStrip (v : PyStr) :
    normalize_string (pyLower (pyStrip v)) = normalize_string v := by
  unfold normalize_string
  rw [pyLower_pyLower, pyStrip_pyLower, pyStrip_pyStrip, ← pyStrip_pyLower]

/-- When the first attempt is rejected with 401, the fetch raises
`AuthenticationError` after exactly one attempt, with no sleeping. -/
theorem TwoStep.fetch_auth_first {α : Type} (up : Nat → TwoStep.Attempt α) (h : (up 0).s1 = .auth) :
    TwoStep.fetch up = ⟨.error .authenticationError, 1, []⟩ := by
  simp [TwoStep.fetch, MAX_RETRIES, TwoStep.fetchFrom, h]

/-- When every attempt is rate-limited, the fetch makes exactly
`MAX_RETRIES = 3` attempts, sleeping the exponential backoff delays 1 and 2
seconds, and raises `APIError`. -/
theorem TwoStep.fetch_always_rate {α : Type} (up : Nat → TwoStep.Attempt α)
    (h : ∀ i, (up i).s1 = .rate) :
    TwoStep.fetch up = ⟨.error .apiError, 3, [1, 2]⟩ := by
  simp [TwoStep.fetch, MAX_RETRIES, TwoStep.fetchFrom, h 0, h 1, h 2,
    TwoStep.consAttempt, backoffDelay,
    BASE_BACKOFF_DELAY]

/-- When the first attempt succeeds on both steps, the fetch returns its body
after exactly one attempt, with no sleeping. -/
theorem TwoStep.fetch_ok_first {α : Type} (up : Nat → TwoStep.Attempt α) (q : α)
    (h1 : (up 0).s1 = .ok true) (h2 : (up 0).s2 = .ok q) :
    TwoStep.fetch up = ⟨.ok q, 1, []⟩ := by
  simp [TwoStep.fetch, MAX_RETRIES, TwoStep.fetchFrom, h1, h2]

/-- When every attempt fails with a non-401 status, the fetch makes exactly
three attempts with exponential backoff and raises `APIError`. -/
theorem TwoStep.fetch_always_other {α : Type} (up : Nat → TwoStep.Attempt α)
    (h : ∀ i, (up i).s1 = .other) :
    TwoStep.fetch up = ⟨.error .apiError, 3, [1, 2]⟩ := by
  simp [TwoStep.fetch, MAX_RETRIES, TwoStep.fetchFrom, h 0, h 1, h 2,
    TwoStep.consAttempt, backoffDelay, BASE_BACKOFF_DELAY]

/-- A `valid` classification by `get_existing_tokens` pins the stored item's
`ttl` to a value strictly above the read time. -/
theorem IrAuth.get_existing_tokens_valid_ttl (now : Nat)
    (stored : Option IrAuth.TokenItem) (a tt : String) (ei : Nat) (sc : String)
    (rt : Option String) (rtei : Nat)
    (hg : IrAuth.get_existing_tokens now stored = some (.valid a tt ei sc rt rtei)) :
    ∃ item t, stored = some item ∧ item.ttl = some t ∧ now < t := by
  unfold IrAuth.get_existing_tokens at hg
  cases stored with
  | none => simp at hg
  | some item =>
    simp only at hg
    split at hg
    · next hgt =>
      cases ht : item.ttl with
      | none =>
        rw [ht] at hgt
        exact absurd hgt (by simp)
      | some t =>
        rw [ht] at hgt
        exact ⟨item, t, rfl, ht, by simpa using hgt⟩
    · next =>
      split at hg
      · split at hg <;> simp_all
      · simp at hg

/-- When `passwordFlow` answers 200, the `ttl` it recorded for the returned
token is `now` plus the (defaulted) `expires_in`, hence not in the past. -/
theorem IrAuth.passwordFlow_ttl (env : IrAuth.AuthEnv)
    (h200 : (IrAuth.passwordFlow env).statusCode = 200) :
    ∃ t, (IrAuth.passwordFlow env).tokenTtl = some t ∧ env.now ≤ t := by
  cases hr : (IrAuth.make_oauth_request env.upstreamPassword).result with
  | ok body =>
    simp only [IrAuth.passwordFlow, hr]
    exact ⟨env.now + body.expires_in.getD IrAuth.ACCESS_TOKEN_LIFETIME, rfl,
      Nat.le_add_right _ _⟩
  | error e =>
    simp only [IrAuth.passwordFlow, hr] at h200
    cases e <;> simp at h200

/-- Candidate processing either returns the sentinel "not found" body with no
cache write (empty list) or returns some candidate's id as a decimal string
together with a single cache write keyed by that candidate's display name. -/
theorem IrCustid.processDrivers_cases (term : String) (ds : List IrCustid.Driver) :
    (ds = [] ∧ IrCustid.processDrivers term ds
        = (⟨.jnum 0, "Not found: " ++ term, "iRacing"⟩, []))
    ∨ ∃ dr : IrCustid.Driver, (IrCustid.processDrivers term ds).1
          = ⟨.jstr (natStr dr.cust_id), dr.display_name, "iRacing"⟩
        ∧ (IrCustid.processDrivers term ds).2 = [(dr.display_name, dr.cust_id)] := by
  cases ds with
  | nil => exact Or.inl ⟨rfl, rfl⟩
  | cons d rest =>
    right
    simp only [IrCustid.processDrivers]
    split
    · next dr heq => exact ⟨dr, rfl, rfl⟩
    · next => exact ⟨d, rfl, rfl⟩

/-- A successful search returns either a decimal-string id or the integer-0
sentinel with the "Not found" marker. -/
theorem IrCustid.search_result_custid (term : String)
    (up : Nat → TwoStep.Attempt (List IrCustid.Driver)) (r : IrCustid.CustidBody)
    (h : (IrCustid.search_driver_with_auth term up).result = .ok r) :
    (∃ l, r.custid = .jstr l)
    ∨ (r.custid = .jnum 0 ∧ r.name = "Not found: " ++ term) := by
  simp only [IrCustid.search_driver_with_auth] at h
  cases hf : (TwoStep.fetch up).result with
  | error e =>
    simp only [hf] at h
    exact Except.noConfusion h
  | ok ds =>
    simp only [hf] at h
    have hr := Except.ok.inj h
    rcases IrCustid.processDrivers_cases term ds with ⟨_, hpd⟩ | ⟨dr, hpd1, _⟩
    · rw [hpd] at hr
      exact Or.inr ⟨by rw [← hr], by rw [← hr]⟩
    · rw [hpd1] at hr
      exact Or.inl ⟨natStr dr.cust_id, by rw [← hr]⟩

/-- A successful search that performed exactly one cache write returned that
write's candidate: the body's `custid` is the written id as a decimal string
and the body's `name` is the written key. -/
theorem IrCustid.search_write_returns (term : String)
    (up : Nat → TwoStep.Attempt (List IrCustid.Driver)) (nm : String) (k : Nat)
    (hw : (IrCustid.search_driver_with_auth term up).cacheWrites = [(nm, k)]) :
    (IrCustid.search_driver_with_auth term up).result
      = .ok ⟨.jstr (natStr k), nm, "iRacing"⟩ := by
  simp only [IrCustid.search_driver_with_auth] at hw ⊢
  cases hf : (TwoStep.fetch up).result with
  | error e =>
    simp only [hf] at hw
    simp at hw
  | ok ds =>
    simp only [hf] at hw ⊢
    rcases IrCustid.processDrivers_cases term ds with ⟨_, hpd⟩ | ⟨dr, hpd1, hpd2⟩
    · rw [hpd] at hw
      simp at hw
    · rw [hpd2] at hw
      simp only [List.cons.injEq, Prod.mk.injEq, and_true] at hw
      rw [hpd1, hw.1, hw.2]

/-- Entries accumulated by the batch loop: every requested name (and every
already-present key) is present in the final mapping. -/
theorem IrDrivers.runBatch_mem (env : IrDrivers.DriversEnv) (names : List String)
    (store : IrDrivers.Store) (acc : String → Option IrDrivers.ProfileOrError)
    (name : String) (h : name ∈ names ∨ (acc name).isSome) :
    ((IrDrivers.runBatch env names store acc).1 name).isSome := by
  induction names generalizing store acc with
  | nil =>
    rcases h with hmem | hacc
    · exact absurd hmem (List.not_mem_nil name)
    · simpa [IrDrivers.runBatch] using hacc
  | cons n rest ih =>
    simp only [IrDrivers.runBatch]
    apply ih
    rcases h with hmem | hacc
    · rcases List.mem_cons.mp hmem with heq | hmem'
      · right
        simp [heq]
      · exact Or.inl hmem'
    · right
      by_cases he : name = n <;> simp [he, hacc]

/-! ## The claims -/

/-- C5: Masking is a deterministic function of (secret, context) — it is a
pure function in the embedding — and is invariant under case changes and
leading/trailing whitespace in the context argument: for every secret `s` and
context `c`, `mask(s, c) = mask(s, lowercase(trim(c)))`, for both the
password and the client-secret masks; in particular the contexts "Bob ",
"bob" and " BOB" all produce the identical mask. -/
theorem C5_mask_context_insensitive (s c : PyStr) :
    mask_password s c = mask_password s (pyLower (pyStrip c))
    ∧ mask_client_secret s c = mask_client_secret s (pyLower (pyStrip c))
    ∧ mask_password s [66, 111, 98, 32] = mask_password s [98, 111, 98]
    ∧ mask_password s [32, 66, 79, 66] = mask_password s [98, 111, 98] := by
  have hbob1 : normalize_string [66, 111, 98, 32] = normalize_string [98, 111, 98] := by
    decide
  have hbob2 : normalize_string [32, 66, 79, 66] = normalize_string [98, 111, 98] := by
    decide
  refine ⟨?_, ?_, ?_, ?_⟩
  · unfold mask_password
    rw [normalize_string_pyLower_pyStrip]
  · unfold mask_client_secret
    rw [normalize_string_pyLower_pyStrip]
  · unfold mask_password
    rw [hbob1]
  · unfold mask_password
    rw [hbob2]

/-- C1: Whenever the `ir_auth` handler (the `ensure_token` entry point)
answers 200, the expiry recorded in the store for the returned access token is
not in the past relative to the invocation time: the cached branch requires
`ttl > now` and every fresh exchange stores `ttl = now + expires_in`
(default 600 s). -/
theorem C1_ensure_token_never_expired (env : IrAuth.AuthEnv)
    (h200 : (IrAuth.lambda_handler env).statusCode = 200) :
    ∃ t, (IrAuth.lambda_handler env).tokenTtl = some t ∧ env.now ≤ t := by
  cases hg : IrAuth.get_existing_tokens env.now env.stored with
  | none =>
    simp only [IrAuth.lambda_handler, hg] at h200 ⊢
    exact IrAuth.passwordFlow_ttl env h200
  | some et =>
    cases et with
    | valid a tt ei sc rt rtei =>
      simp only [IrAuth.lambda_handler, hg] at h200 ⊢
      obtain ⟨item, t, hs, ht, hlt⟩ :=
        IrAuth.get_existing_tokens_valid_ttl env.now env.stored a tt ei sc rt rtei hg
      rw [hs]
      exact ⟨t, by simp [ht], Nat.le_of_lt hlt⟩
    | expired rt =>
      simp only [IrAuth.lambda_handler, hg] at h200 ⊢
      by_cases hrt : rt = ""
      · simp only [if_pos hrt] at h200 ⊢
        exact IrAuth.passwordFlow_ttl env h200
      · simp only [if_neg hrt] at h200 ⊢
        cases hr : (IrAuth.make_oauth_request env.upstreamRefresh).result with
        | ok body =>
          simp only [hr]
          exact ⟨env.now + body.expires_in.getD IrAuth.ACCESS_TOKEN_LIFETIME, rfl,
            Nat.le_add_right _ _⟩
        | error e =>
          simp only [hr] at h200 ⊢
          exact IrAuth.passwordFlow_ttl env h200

/-- C1 witness: a cached, still-valid token (stored expiry 1500, call time
1000) is returned with status 200 and an unexpired recorded expiry. -/
theorem C1_witness :
    (IrAuth.lambda_handler authEnvW1).statusCode = 200
    ∧ ∃ t, (IrAuth.lambda_handler authEnvW1).tokenTtl = some t
        ∧ authEnvW1.now ≤ t :=
  ⟨rfl, C1_ensure_token_never_expired authEnvW1 rfl⟩

/-- C6 counterexample: with no stored token and an upstream OAuth endpoint
that answers 500 on every attempt, the `ir_auth` handler surfaces the
exhausted transient retry as 401 (an `AuthenticationError`), not as 502 — the
code has no `UpstreamError` and no 502 mapping. -/
theorem C6_counterexample :
    (IrAuth.lambda_handler authEnvW6).statusCode = 401
    ∧ (IrAuth.lambda_handler authEnvW6).statusCode ≠ 502 := by
  exact ⟨rfl, by decide⟩

/-- C6 (amended): an OAuth exchange whose upstream status is none of 200,
429, 401, 403 is treated as transient and retried with exponential backoff
(sleeping 1 s then 2 s) up to the ceiling of 3 attempts, after which the
operation fails with `AuthenticationError` — not an `UpstreamError` — and is
surfaced to the HTTP caller as status 401, not 502. -/
theorem C6_transient_retry_then_401 (code : Nat) (ra : Option Nat)
    (hc200 : code ≠ 200) (hc429 : code ≠ 429) (hc401 : code ≠ 401)
    (hc403 : code ≠ 403) (now : Nat) (refreshUp : Nat → IrAuth.HttpOutcome) :
    IrAuth.make_oauth_request (fun _ => .status code ra)
        = ⟨.error .authenticationError, 3, [1, 2]⟩
    ∧ (IrAuth.lambda_handler
          { now := now
            stored := none
            upstreamPassword := fun _ => .status code ra
            upstreamRefresh := refreshUp }).statusCode = 401 := by
  have hnot : ¬(code = 401 ∨ code = 403) := by simp [hc401, hc403]
  have hrun : IrAuth.make_oauth_request (fun _ => .status code ra)
      = ⟨.error .authenticationError, 3, [1, 2]⟩ := by
    simp [IrAuth.make_oauth_request, MAX_RETRIES, IrAuth.make_oauth_request_from,
      hc429, hnot, IrAuth.consAttempt, backoffDelay, BASE_BACKOFF_DELAY]
  refine ⟨hrun, ?_⟩
  simp [IrAuth.lambda_handler, IrAuth.get_existing_tokens, IrAuth.passwordFlow, hrun]

/-- C6 witness: the amended claim at upstream status 500 with no hint. -/
theorem C6_witness :
    IrAuth.make_oauth_request (fun _ => IrAuth.HttpOutcome.status 500 none)
        = ⟨.error .authenticationError, 3, [1, 2]⟩
    ∧ (IrAuth.lambda_handler authEnvW6).statusCode = 401 :=
  C6_transient_retry_then_401 500 none (by decide) (by decide) (by decide)
    (by decide) 0 (fun _ => .netError)

/-- C3 (amended): when the upstream always answers 429, every call site makes
exactly 3 attempts. But the sites differ: the Token Lifecycle Manager's OAuth
site sleeps the server-supplied `Retry-After` hint when present (else the
exponential backoff 1·2^attempt) and raises `RateLimitError`, surfaced as 429
with a `Retry-After: 60` hint; the Resolution Service's search site ignores
any `Retry-After` header, always sleeps the exponential backoff 1 s then 2 s,
raises `APIError`, and is surfaced as 502 without a retry-after hint. -/
theorem C3_rate_limit_ceiling (hint : Nat → Option Nat) (now : Nat)
    (refreshUp : Nat → IrAuth.HttpOutcome) (cenv : IrCustid.CustidEnv)
    (hterm : cenv.searchTerm ≠ "")
    (hmiss : cenv.custidCache cenv.searchTerm = none)
    (htok : cenv.token1.isSome = true)
    (hrate : ∀ i, (cenv.up i).s1 = .rate) :
    IrAuth.make_oauth_request (fun i => .status 429 (hint i))
        = ⟨.error .rateLimitError, 3, [(hint 0).getD 1, (hint 1).getD 2]⟩
    ∧ (IrAuth.lambda_handler
          { now := now
            stored := none
            upstreamPassword := fun i => .status 429 (hint i)
            upstreamRefresh := refreshUp }) = ⟨429, some 60, none, none, none⟩
    ∧ IrCustid.search_driver_with_auth cenv.searchTerm cenv.up
        = ⟨.error .apiError, 3, [1, 2], []⟩
    ∧ (IrCustid.lambda_handler cenv).statusCode = 502 := by
  have hrun : IrAuth.make_oauth_request (fun i => .status 429 (hint i))
      = ⟨.error .rateLimitError, 3, [(hint 0).getD 1, (hint 1).getD 2]⟩ := by
    simp [IrAuth.make_oauth_request, MAX_RETRIES, IrAuth.make_oauth_request_from,
      IrAuth.consAttempt, backoffDelay, BASE_BACKOFF_DELAY]
  have hsearch : IrCustid.search_driver_with_auth cenv.searchTerm cenv.up
      = ⟨.error .apiError, 3, [1, 2], []⟩ := by
    simp [IrCustid.search_driver_with_auth, TwoStep.fetch_always_rate cenv.up hrate]
  refine ⟨hrun, ?_, hsearch, ?_⟩
  · simp [IrAuth.lambda_handler, IrAuth.get_existing_tokens, IrAuth.passwordFlow, hrun]
  · obtain ⟨tok, htok1⟩ := Option.isSome_iff_exists.mp htok
    simp [IrCustid.lambda_handler, hterm, hmiss, htok1, IrCustid.doSearch, hsearch]

/-- C3 counterexample: at the Resolution Service call site an
always-429 upstream is surfaced by the `ir_custid` handler as status 502 (an
`APIError`), not as 429 with a retry-after hint as the claim states for every
call site. -/
theorem C3_counterexample :
    (IrCustid.lambda_handler custidEnvW3).statusCode = 502
    ∧ (IrCustid.lambda_handler custidEnvW3).statusCode ≠ 429 := by
  exact ⟨rfl, by decide⟩

/-- C3 witness: the amended claim at the constant hint 7 and the concrete
rate-limited `ir_custid` environment. -/
theorem C3_witness :
    IrAuth.make_oauth_request (fun i => IrAuth.HttpOutcome.status 429 (hintW3 i))
        = ⟨.error .rateLimitError, 3, [7, 7]⟩
    ∧ (IrAuth.lambda_handler
          { now := 0
            stored := none
            upstreamPassword := fun i => .status 429 (hintW3 i)
            upstreamRefresh := fun _ => .netError }) = ⟨429, some 60, none, none, none⟩
    ∧ IrCustid.search_driver_with_auth custidEnvW3.searchTerm custidEnvW3.up
        = ⟨.error .apiError, 3, [1, 2], []⟩
    ∧ (IrCustid.lambda_handler custidEnvW3).statusCode = 502 :=
  C3_rate_limit_ceiling hintW3 0 (fun _ => .netError) custidEnvW3
    (by decide) rfl rfl (fun _ => rfl)

/-- C2: when every authenticated profile fetch is rejected with 401, the
Profile Service makes exactly two upstream attempts for the name — the
original and one retry after a single forced re-authentication — and then
surfaces the failure as a per-name error entry, with exactly one
re-authentication invocation. -/
theorem C2_exactly_two_attempts (env : IrDrivers.DriversEnv) (name : String)
    (store : IrDrivers.Store)
    (hmiss : IrDrivers.get_cached_driver_profile env.now (store.profiles name) = none)
    (cid : Nat) (hcid : store.custids name = some cid) (hpos : 0 < cid)
    (h1 : ∀ i, (env.up name i).s1 = .auth)
    (hre : env.reauth name = true)
    (htok : (env.newToken name).isSome = true)
    (h2 : ∀ i, (env.upRetry name i).s1 = .auth) :
    IrDrivers.process_driver env name store = ⟨.err .iracingApi, 2, 1, none⟩ := by
  obtain ⟨tok, htok1⟩ := Option.isSome_iff_exists.mp htok
  have hk : ¬((cid : Int) ≤ 0) := by omega
  simp [IrDrivers.process_driver, hmiss, IrDrivers.get_customer_id_from_cache, hcid,
    pyTruthy_jstr_natStr, pyInt?_jstr_natStr, hk,
    TwoStep.fetch_auth_first (env.up name) (h1 0),
    TwoStep.fetch_auth_first (env.upRetry name) (h2 0), hre, htok1]

/-- C2 witness: the 401-everywhere profile environment for name "A". -/
theorem C2_witness :
    IrDrivers.process_driver driversEnvW2 "A" storeW2 = ⟨.err .iracingApi, 2, 1, none⟩ :=
  C2_exactly_two_attempts driversEnvW2 "A" storeW2 rfl 42 rfl (by decide)
    (fun _ => rfl) rfl rfl (fun _ => rfl)

/-- C7: the profile cache respects its TTL. A profile written at `t_w` gets
absolute expiry `t_w + 3600`; a read strictly before that expiry is served
from the cache (no upstream attempt, no new write), a read at or after it
treats the record as absent, and `process_driver` then performs a fresh
upstream fetch and writes the profile back with the new expiry
`now + 3600`. -/
theorem C7_profile_cache_ttl (t_w t_r : Nat) (p q : IrDrivers.ProfileDoc)
    (env : IrDrivers.DriversEnv) (name : String) (store : IrDrivers.Store)
    (cid : Nat) :
    (IrDrivers.cache_driver_profile t_w p).ttl = t_w + 3600
    ∧ (t_r < t_w + 3600 →
        IrDrivers.get_cached_driver_profile t_r
          (some (IrDrivers.cache_driver_profile t_w p)) = some p)
    ∧ (t_w + 3600 ≤ t_r →
        IrDrivers.get_cached_driver_profile t_r
          (some (IrDrivers.cache_driver_profile t_w p)) = none)
    ∧ (store.profiles name = some (IrDrivers.cache_driver_profile t_w p) →
        env.now < t_w + 3600 →
        IrDrivers.process_driver env name store = ⟨.profile p, 0, 0, none⟩)
    ∧ (store.profiles name = some (IrDrivers.cache_driver_profile t_w p) →
        t_w + 3600 ≤ env.now →
        store.custids name = some cid → 0 < cid →
        env.up name 0 = ⟨.ok true, .ok q⟩ →
        IrDrivers.process_driver env name store
          = ⟨.profile q, 1, 0, some ⟨q, env.now + 3600⟩⟩) := by
  refine ⟨rfl, ?_, ?_, ?_, ?_⟩
  · intro hlt
    simp [IrDrivers.get_cached_driver_profile, IrDrivers.cache_driver_profile,
      IrDrivers.CACHE_TTL_SECONDS, hlt]
  · intro hge
    simp [IrDrivers.get_cached_driver_profile, IrDrivers.cache_driver_profile,
      IrDrivers.CACHE_TTL_SECONDS]
    omega
  · intro hstore hlt
    have hhit : IrDrivers.get_cached_driver_profile env.now (store.profiles name)
        = some p := by
      simp [hstore, IrDrivers.get_cached_driver_profile,
        IrDrivers.cache_driver_profile, IrDrivers.CACHE_TTL_SECONDS, hlt]
    simp [IrDrivers.process_driver, hhit]
  · intro hstore hge hcid hpos hup
    have hmiss : IrDrivers.get_cached_driver_profile env.now (store.profiles name)
        = none := by
      simp [hstore, IrDrivers.get_cached_driver_profile,
        IrDrivers.cache_driver_profile, IrDrivers.CACHE_TTL_SECONDS]
      omega
    have hk : ¬((cid : Int) ≤ 0) := by omega
    have hfetch := TwoStep.fetch_ok_first (env.up name) q
      (by rw [hup]) (by rw [hup])
    simp [IrDrivers.process_driver, hmiss, IrDrivers.get_customer_id_from_cache,
      hcid, pyTruthy_jstr_natStr, pyInt?_jstr_natStr, hk, hfetch,
      IrDrivers.cache_driver_profile, IrDrivers.CACHE_TTL_SECONDS]

/-- C7 witness: a profile cached at time 100 (payload 5) is served from cache
at time 3000 and refetched and rewritten (payload 9, new expiry 8600) at time
5000. -/
theorem C7_witness :
    IrDrivers.process_driver (driversEnvW7 3000) "A" storeW7
        = ⟨.profile 5, 0, 0, none⟩
    ∧ IrDrivers.process_driver (driversEnvW7 5000) "A" storeW7
        = ⟨.profile 9, 1, 0, some ⟨9, 8600⟩⟩ :=
  ⟨(C7_profile_cache_ttl 100 0 5 9 (driversEnvW7 3000) "A" storeW7 42).2.2.2.1
      rfl (by decide),
    (C7_profile_cache_ttl 100 0 5 9 (driversEnvW7 5000) "A" storeW7 42).2.2.2.2
      rfl (by decide) rfl (by decide) rfl⟩

/-- C8: batch isolation. Whenever the name list is nonempty and a shared
access token is available (directly or after one `ir_auth` invocation), the
`ir_drivers` handler answers 200 with a mapping that contains an entry for
every requested name — `process_driver` turns every per-name failure into an
error entry instead of aborting the batch. -/
theorem C8_batch_isolation (env : IrDrivers.DriversEnv) (store : IrDrivers.Store)
    (hnames : env.names ≠ [])
    (htok : env.token1.isSome = true
      ∨ (env.authOk = true ∧ env.token2.isSome = true)) :
    (IrDrivers.lambda_handler env store).statusCode = 200
    ∧ ∀ name ∈ env.names,
        ((IrDrivers.lambda_handler env store).body name).isSome = true := by
  rcases htok with h1 | ⟨hok, h2⟩
  · obtain ⟨tok, ht⟩ := Option.isSome_iff_exists.mp h1
    refine ⟨?_, ?_⟩
    · simp [IrDrivers.lambda_handler, hnames, ht]
    · intro name hmem
      simp only [IrDrivers.lambda_handler, if_neg hnames, ht]
      exact IrDrivers.runBatch_mem env env.names store (fun _ => none) name (Or.inl hmem)
  · obtain ⟨tok, ht2⟩ := Option.isSome_iff_exists.mp h2
    cases ht1 : env.token1 with
    | some tok1 =>
      refine ⟨by simp [IrDrivers.lambda_handler, hnames, ht1], ?_⟩
      intro name hmem
      simp only [IrDrivers.lambda_handler, if_neg hnames, ht1]
      exact IrDrivers.runBatch_mem env env.names store (fun _ => none) name (Or.inl hmem)
    | none =>
      refine ⟨by simp [IrDrivers.lambda_handler, hnames, ht1, hok, ht2], ?_⟩
      intro name hmem
      simp only [IrDrivers.lambda_handler, if_neg hnames, ht1, hok, ht2]
      simp only [Bool.not_true, Bool.false_eq_true, if_false]
      exact IrDrivers.runBatch_mem env env.names store (fun _ => none) name (Or.inl hmem)

/-- C8 witness: in the batch ["A", "B", "C"] where the profile fetch for "B"
always fails upstream, the response still maps every name — "A" and "C" to
their profiles and "B" to a per-name error entry. -/
theorem C8_witness :
    (IrDrivers.lambda_handler driversEnvW8 storeW8).statusCode = 200
    ∧ (∀ name ∈ driversEnvW8.names,
        ((IrDrivers.lambda_handler driversEnvW8 storeW8).body name).isSome = true)
    ∧ (IrDrivers.lambda_handler driversEnvW8 storeW8).body "A" = some (.profile 7)
    ∧ (IrDrivers.lambda_handler driversEnvW8 storeW8).body "B"
        = some (.err .iracingApi)
    ∧ (IrDrivers.lambda_handler driversEnvW8 storeW8).body "C" = some (.profile 9) :=
  ⟨(C8_batch_isolation driversEnvW8 storeW8 (by decide) (Or.inl rfl)).1,
    (C8_batch_isolation driversEnvW8 storeW8 (by decide) (Or.inl rfl)).2,
    rfl, rfl, rfl⟩

/-- C4 (amended): resolution is idempotent through the cache only when the
chosen candidate's display name equals the query name. The cache write is
keyed by the candidate's `display_name` (second conjunct: the single write of
a successful search carries exactly the returned candidate's name and id), so
when that key equals the query, a second resolution of the same name is a
cache hit: it returns the identical decimal-string identifier with origin
"DynamoDB", zero upstream attempts and no further writes. When the fallback
candidate's display name differs from the query, the second lookup misses
(see the counterexample). -/
theorem C4_idempotent_when_exact (env env' : IrCustid.CustidEnv) (n : Nat)
    (hterm : env.searchTerm ≠ "")
    (hw : (IrCustid.lambda_handler env).cacheWrites = [(env.searchTerm, n)])
    (hterm' : env'.searchTerm = env.searchTerm)
    (hcache' : env'.custidCache
        = IrCustid.applyWrites env.custidCache
            (IrCustid.lambda_handler env).cacheWrites) :
    IrCustid.lambda_handler env'
      = ⟨200, some ⟨.jstr (natStr n), env.searchTerm, "DynamoDB"⟩, 0, []⟩
    ∧ ∀ (term : String) (up : Nat → TwoStep.Attempt (List IrCustid.Driver))
        (nm : String) (k : Nat),
        (IrCustid.search_driver_with_auth term up).cacheWrites = [(nm, k)] →
        (IrCustid.search_driver_with_auth term up).result
          = .ok ⟨.jstr (natStr k), nm, "iRacing"⟩ := by
  constructor
  · have hhit : env'.custidCache env'.searchTerm = some n := by
      rw [hcache', hw, hterm']
      simp [IrCustid.applyWrites]
    rw [hterm'] at hhit
    simp [IrCustid.lambda_handler, hterm', hterm, hhit]
  · exact fun term up nm k hwk => IrCustid.search_write_returns term up nm k hwk

/-- C4 counterexample: querying "bob" resolves (via the fallback) to the
candidate "Bob Smith" with id 5 and caches it under the key "Bob Smith", so
the repeated query "bob" misses the cache and hits upstream again (one more
upstream attempt, origin "iRacing" rather than the cache tag) — the claim's
"keyed such that the subsequent cache lookup for that same query name hits"
fails. -/
theorem C4_counterexample :
    (IrCustid.lambda_handler custidEnvX4).statusCode = 200
    ∧ (IrCustid.lambda_handler custidEnvX4).cacheWrites = [("Bob Smith", 5)]
    ∧ custidEnvX4'.custidCache custidEnvX4.searchTerm = none
    ∧ (IrCustid.lambda_handler custidEnvX4').attempts = 1
    ∧ ∃ b, (IrCustid.lambda_handler custidEnvX4').body = some b
        ∧ b.origin = "iRacing" :=
  ⟨rfl, rfl, rfl, rfl, ⟨⟨.jstr (natStr 5), "Bob Smith", "iRacing"⟩, rfl, rfl⟩⟩

/-- C4 witness: the amended claim at the query "Bob Smith", whose single
candidate matches the query exactly — the second resolution is answered from
the cache. -/
theorem C4_witness :
    IrCustid.lambda_handler custidEnvW4'
      = ⟨200, some ⟨.jstr (natStr 5), custidEnvW4.searchTerm, "DynamoDB"⟩, 0, []⟩ :=
  (C4_idempotent_when_exact custidEnvW4 custidEnvW4' 5 (by decide) rfl rfl rfl).1

/-- C9: empty-candidate resolution. When the upstream candidate list is
empty, the search returns the sentinel identifier 0 (an integer) with the
"Not found" marker after a single attempt and performs no identifier-cache
write; moreover no successful search whose body carries the sentinel custid 0
ever writes to the identifier cache. -/
theorem C9_empty_candidates (term : String)
    (up : Nat → TwoStep.Attempt (List IrCustid.Driver))
    (h1 : (up 0).s1 = .ok true)
    (h2 : (up 0).s2 = .ok ([] : List IrCustid.Driver)) :
    IrCustid.search_driver_with_auth term up
      = ⟨.ok ⟨.jnum 0, "Not found: " ++ term, "iRacing"⟩, 1, [], []⟩
    ∧ ∀ (up' : Nat → TwoStep.Attempt (List IrCustid.Driver))
        (r : IrCustid.CustidBody),
        (IrCustid.search_driver_with_auth term up').result = .ok r →
        r.custid = .jnum 0 →
        (IrCustid.search_driver_with_auth term up').cacheWrites = [] := by
  constructor
  · have hfetch := TwoStep.fetch_ok_first up ([] : List IrCustid.Driver) h1 h2
    simp [IrCustid.search_driver_with_auth, hfetch, IrCustid.processDrivers]
  · intro up' r hres hcust
    simp only [IrCustid.search_driver_with_auth] at hres ⊢
    cases hf : (TwoStep.fetch up').result with
    | error e =>
      simp only [hf] at hres
      exact Except.noConfusion hres
    | ok ds =>
      simp only [hf] at hres ⊢
      have hr := Except.ok.inj hres
      rcases IrCustid.processDrivers_cases term ds with ⟨_, hpd⟩ | ⟨dr, hpd1, _⟩
      · rw [hpd]
      · rw [hpd1] at hr
        rw [← hr] at hcust
        exact absurd hcust (by simp)

/-- C9 witness: the query "Zzyzx" with no upstream candidates. -/
theorem C9_witness :
    IrCustid.search_driver_with_auth "Zzyzx" upW9
      = ⟨.ok ⟨.jnum 0, "Not found: " ++ "Zzyzx", "iRacing"⟩, 1, [], []⟩ :=
  (C9_empty_candidates "Zzyzx" upW9 rfl rfl).1

/-- The search phase of the handler only produces bodies whose `custid` is
either a decimal string or the integer-0 sentinel. -/
theorem IrCustid.doSearch_body_custid (env : IrCustid.CustidEnv)
    (b : IrCustid.CustidBody) (hb : (IrCustid.doSearch env).body = some b) :
    (∃ l, b.custid = .jstr l)
    ∨ (b.custid = .jnum 0 ∧ b.name = "Not found: " ++ env.searchTerm) := by
  simp only [IrCustid.doSearch] at hb
  cases h1 : (IrCustid.search_driver_with_auth env.searchTerm env.up).result with
  | ok body =>
    simp only [h1] at hb
    have hbe := Option.some.inj hb
    subst hbe
    exact IrCustid.search_result_custid env.searchTerm env.up body h1
  | error e =>
    cases e with
    | apiError =>
      simp only [h1] at hb
      exact Option.noConfusion hb
    | authenticationError =>
      simp only [h1] at hb
      by_cases hok : env.authOk2
      · simp only [hok] at hb
        cases ht3 : env.token3 with
        | none =>
          simp only [ht3] at hb
          simp at hb
        | some tok =>
          simp only [ht3] at hb
          cases h2 : (IrCustid.search_driver_with_auth env.searchTerm env.upRetry).result with
          | ok body2 =>
            simp only [h2] at hb
            simp only [Bool.not_true, Bool.false_eq_true, if_false] at hb
            have hbe := Option.some.inj hb
            subst hbe
            exact IrCustid.search_result_custid env.searchTerm env.upRetry body2 h2
          | error e2 =>
            cases e2 <;> simp only [h2] at hb <;>
              simp only [Bool.not_true, Bool.false_eq_true, if_false] at hb <;>
              exact Option.noConfusion hb
      · simp only [Bool.not_eq_true] at hok
        simp only [hok] at hb
        simp at hb

/-- C10: the wire type of the `custid` field differs between outcomes. Every
body the Resolution Service returns carries either a decimal-string `custid`
(successful resolution, from the cache or from a candidate) or the integer 0
together with the "Not found" marker (empty candidate list) — so callers
cannot assume a single wire type for the field. -/
theorem C10_custid_wire_type (env : IrCustid.CustidEnv) (b : IrCustid.CustidBody)
    (hb : (IrCustid.lambda_handler env).body = some b) :
    (∃ ds, b.custid = .jstr ds)
    ∨ (b.custid = .jnum 0 ∧ b.name = "Not found: " ++ env.searchTerm) := by
  by_cases hterm : env.searchTerm = ""
  · simp [IrCustid.lambda_handler, hterm] at hb
  · cases hc : env.custidCache env.searchTerm with
    | some n =>
      simp only [IrCustid.lambda_handler, if_neg hterm, hc] at hb
      have hbv := Option.some.inj hb
      exact Or.inl ⟨natStr n, by rw [← hbv]⟩
    | none =>
      simp only [IrCustid.lambda_handler, if_neg hterm, hc] at hb
      cases ht1 : env.token1 with
      | some tok =>
        simp only [ht1] at hb
        exact IrCustid.doSearch_body_custid env b hb
      | none =>
        simp only [ht1] at hb
        by_cases hok : env.authOk1
        · simp only [hok] at hb
          cases ht2 : env.token2 with
          | none =>
            simp only [ht2] at hb
            simp at hb
          | some tok2 =>
            simp only [ht2] at hb
            simp only [Bool.not_true, Bool.false_eq_true, if_false] at hb
            exact IrCustid.doSearch_body_custid env b hb
        · simp only [Bool.not_eq_true] at hok
          simp only [hok] at hb
          simp at hb

/-- C10 witness: the "Zzyzx" invocation returns the integer-0 sentinel body,
and the dichotomy holds for it. -/
theorem C10_witness :
    (∃ ds, (IrCustid.CustidBody.mk (.jnum 0) ("Not found: " ++ "Zzyzx")
        "iRacing").custid = .jstr ds)
    ∨ ((IrCustid.CustidBody.mk (.jnum 0) ("Not found: " ++ "Zzyzx")
          "iRacing").custid = .jnum 0
        ∧ (IrCustid.CustidBody.mk (.jnum 0) ("Not found: " ++ "Zzyzx")
            "iRacing").name = "Not found: " ++ custidEnvW10.searchTerm) :=
  C10_custid_wire_type custidEnvW10
    ⟨.jnum 0, "Not found: " ++ "Zzyzx", "iRacing"⟩ rfl
